import Mathlib

/-!
# Verification of the WMS task lifecycle engine

Shallow embedding of the core of the warehouse management service
(`backend/src/services`) in Lean 4, together with theorems settling the
frozen claims about the natural-language specification.

Modelling conventions:
* JavaScript strings are Lean `String`s; timestamps (JS `Date` values /
  SQL `NOW()`) are epoch instants modelled as `Int` (milliseconds for the
  generation logic, seconds for the task service timestamps).
* JavaScript numbers fed to validators are modelled by `NumInput`:
  either an integer value or a non-integer (`NaN`, `undefined` coerced to
  `NaN`, fractional or infinite values — everything on which
  `Number.isInteger` is `false`).
* Fallible code (`throw createHttpError(...)`) returns `Except HttpError`.
* Database state is explicit: record types holding the rows a service
  touches; a transaction is a body producing a new state, wrapped so that
  an error restores the initial state (`BEGIN`/`COMMIT`/`ROLLBACK`).
-/

namespace WMS

/-- Classified error carrying an HTTP status code, as produced by
`createHttpError(statusCode, message)` in the source. -/
structure HttpError where
  statusCode : Nat
  message : String
  deriving Repr, DecidableEq

/-- `TASK_STATUSES` from `models/taskModel.js`. -/
inductive TaskStatus where
  | created
  | assigned
  | in_progress
  | paused
  | completed
  | cancelled
  | failed
  deriving Repr, DecidableEq, Fintype

/-- `STATE_TRANSITIONS` from `services/taskService.js` lines 9–17:
the per-status sets of allowed next statuses (the `cancelled` special
case lives in `isValidTaskTransition`, not here). -/
def STATE_TRANSITIONS : TaskStatus → List TaskStatus
  | .created => [.assigned]
  | .assigned => [.in_progress]
  | .in_progress => [.completed, .paused]
  | .paused => [.in_progress]
  | .completed => []
  | .cancelled => []
  | .failed => []

/-- `isValidTaskTransition(currentStatus, nextStatus)` from
`services/taskService.js` lines 107–116: self-transitions are rejected,
a transition *to* `cancelled` is accepted from any other status, and
otherwise the `STATE_TRANSITIONS` table decides. -/
def isValidTaskTransition (currentStatus nextStatus : TaskStatus) : Bool :=
  if currentStatus = nextStatus then false
  else if nextStatus = .cancelled then true
  else (STATE_TRANSITIONS currentStatus).contains nextStatus

/-- The transition relation as the spec's claim enumerates it
(§4.3 together with the *transition closure* property): the five explicit
arrows plus cancellation from any **non-terminal** state only. -/
def specClaimedTransition (s s' : TaskStatus) : Bool :=
  (decide ((s, s') ∈ [(TaskStatus.created, TaskStatus.assigned),
      (TaskStatus.assigned, TaskStatus.in_progress),
      (TaskStatus.in_progress, TaskStatus.completed),
      (TaskStatus.in_progress, TaskStatus.paused),
      (TaskStatus.paused, TaskStatus.in_progress)])) ||
    (decide (s' = TaskStatus.cancelled) &&
      decide (s ∈ [TaskStatus.created, TaskStatus.assigned,
        TaskStatus.in_progress, TaskStatus.paused]))

/-- The transition relation the code actually implements, written out
extensionally: the five explicit arrows plus cancellation from any state
other than `cancelled` itself — including the terminal states
`completed` and `failed`. -/
def codeTransitionRelation (s s' : TaskStatus) : Bool :=
  (decide ((s, s') ∈ [(TaskStatus.created, TaskStatus.assigned),
      (TaskStatus.assigned, TaskStatus.in_progress),
      (TaskStatus.in_progress, TaskStatus.completed),
      (TaskStatus.in_progress, TaskStatus.paused),
      (TaskStatus.paused, TaskStatus.in_progress)])) ||
    (decide (s' = TaskStatus.cancelled) && decide (s ≠ TaskStatus.cancelled))

/-- A JavaScript number as seen by `Number.isInteger`-style validators:
either an integer, or any value on which `Number.isInteger` is `false`
(`NaN` — including `Number(undefined)` and `Number("abc")` —
fractional values, infinities). -/
inductive NumInput where
  | int (n : Int)
  | nonInt
  deriving Repr, DecidableEq

/-- Result record of `parsePaginationParams`. -/
structure Pagination where
  page : Int
  limit : Int
  offset : Int
  deriving Repr, DecidableEq

/-- `parsePaginationParams(page, limit)` from `services/taskService.js`
lines 67–79: invalid or non-positive values fall back to page 1 / limit
50; the limit is capped at 200; `offset = (page - 1) * limit`. -/
def parsePaginationParams (page limit : NumInput) : Pagination :=
  let safePage : Int := match page with
    | .int n => if 0 < n then n else 1
    | .nonInt => 1
  let safeLimit : Int := match limit with
    | .int n => if 0 < n then min n 200 else 50
    | .nonInt => 50
  { page := safePage, limit := safeLimit, offset := (safePage - 1) * safeLimit }

/-- Milliseconds per day, `msPerDay` in `calculatePickPriority`. -/
def msPerDay : Int := 24 * 60 * 60 * 1000

/-- `calculatePickPriority(shipDate, now)` from
`services/taskGenerationLogic.js` lines 43–59.  Dates are modelled as
epoch milliseconds, so `parseDate`'s validity check is vacuous here;
`Math.floor` of the real quotient is `Int.fdiv` (floor division). -/
def calculatePickPriority (shipDate now : Int) : Int :=
  let daysUntilShip := Int.fdiv (shipDate - now) msPerDay
  if daysUntilShip ≤ 0 then 100
  else if daysUntilShip = 1 then 90
  else if daysUntilShip ≤ 3 then 70
  else 50

/-! ## Task generation logic (`services/taskGenerationLogic.js`)

Pure event normalization, priority/estimation math and zone grouping.
`randomUUID()` is modelled by an explicit `freshUuid : String` argument;
JS `Date` values are epoch milliseconds (`Int`), so `parseDate`'s
parseability check is vacuous and a *missing or unparseable* date is a
`none`.  JS string `.trim()` is `jsTrim` over the common whitespace
characters. -/

/-- The whitespace characters trimmed by JS `String.prototype.trim`
(modelled subset: space, tab, line feed, carriage return). -/
def isJsWhitespace (c : Char) : Bool :=
  c = ' ' || c = '\t' || c = '\n' || c = '\r'

/-- Trimming on the character list: drop leading and trailing
whitespace. -/
def trimCharList (l : List Char) : List Char :=
  ((l.dropWhile isJsWhitespace).reverse.dropWhile isJsWhitespace).reverse

/-- JS `String.prototype.trim`: drop leading and trailing whitespace. -/
def jsTrim (s : String) : String :=
  String.mk (trimCharList s.data)

/-- `ORDER_EVENT_TYPES.SALES_ORDER_READY_FOR_PICK`. -/
def SALES_ORDER_READY_FOR_PICK : String := "sales_order_ready_for_pick"

/-- `ORDER_EVENT_TYPES.PURCHASE_ORDER_RECEIVED`. -/
def PURCHASE_ORDER_RECEIVED : String := "purchase_order_received"

def DEFAULT_PICK_BASE_TIME_SECONDS : Int := 90
def DEFAULT_PICK_TIME_PER_UNIT_SECONDS : Int := 12
def DEFAULT_PUTAWAY_BASE_TIME_SECONDS : Int := 75
def DEFAULT_PUTAWAY_TIME_PER_UNIT_SECONDS : Int := 10
def DEFAULT_PUTAWAY_PRIORITY : Int := 60

/-- `parsePositiveInteger(value, fieldName)` from
`taskGenerationLogic.js` lines 20–26.  A JS value that is absent
(`undefined`/`null`, so `Number(value)` is `NaN`) is `none`; an integer
value is `some n` (the `Number.isInteger` test is then true and only the
positivity test remains). -/
def parsePositiveInteger (value : Option Int) (fieldName : String) : Except HttpError Int :=
  match value with
  | none => .error ⟨400, fieldName ++ " must be a positive integer"⟩
  | some n =>
    if n ≤ 0 then .error ⟨400, fieldName ++ " must be a positive integer"⟩ else .ok n

/-- `calculateEstimatedTimeSeconds(units, baseTimeSeconds, timePerUnitSeconds)`
from `taskGenerationLogic.js` lines 36–41. -/
def calculateEstimatedTimeSeconds (units baseTimeSeconds timePerUnitSeconds : Option Int) :
    Except HttpError Int := do
  let safeUnits ← parsePositiveInteger units "units"
  let safeBaseTimeSeconds ← parsePositiveInteger baseTimeSeconds "baseTimeSeconds"
  let safeTimePerUnitSeconds ← parsePositiveInteger timePerUnitSeconds "timePerUnitSeconds"
  pure (safeBaseTimeSeconds + safeUnits * safeTimePerUnitSeconds)

/-- `createEventKey(eventType, sourceDocumentId)` from
`taskGenerationLogic.js` lines 61–68, with `randomUUID()` passed in as
`freshUuid`. -/
def createEventKey (eventType sourceDocumentId freshUuid : String) :
    Except HttpError String :=
  let safeEventType := jsTrim eventType
  let safeSourceDocumentId := jsTrim sourceDocumentId
  if safeEventType = "" || safeSourceDocumentId = "" then
    .error ⟨400, "eventType and sourceDocumentId are required to build eventKey"⟩
  else .ok (safeEventType ++ ":" ++ safeSourceDocumentId ++ ":" ++ freshUuid)

/-- A raw sales-order line as received in the payload: every field may be
missing (`Number(undefined)` is `NaN` and fails `parsePositiveInteger`). -/
structure RawSalesOrderLine where
  skuId : Option Int
  quantity : Option Int
  pickLocationId : Option Int
  fromLocationId : Option Int
  deriving Repr, DecidableEq

/-- A raw sales-order event payload (the fields
`normalizeSalesOrderEvent` reads). -/
structure RawSalesOrderPayload where
  salesOrderId : Option String
  shipDate : Option Int
  lines : Option (List RawSalesOrderLine)
  eventKey : Option String
  deriving Repr, DecidableEq

/-- A normalized sales-order line. -/
structure SalesOrderLine where
  skuId : Int
  quantity : Int
  pickLocationId : Int
  deriving Repr, DecidableEq

/-- The normalized sales-order event returned by
`normalizeSalesOrderEvent`. -/
structure SalesOrderEvent where
  sourceDocumentId : String
  eventKey : String
  salesOrderId : String
  shipDate : Int
  lines : List SalesOrderLine
  deriving Repr, DecidableEq

/-- Per-line validation of `normalizeSalesOrderEvent` (the `payload.lines.map`
callback, lines 81–94; the positional index used only in error messages is
dropped). -/
def normalizeSalesOrderLines : List RawSalesOrderLine → Except HttpError (List SalesOrderLine)
  | [] => .ok []
  | line :: rest => do
    let skuId ← parsePositiveInteger line.skuId "lines[].skuId"
    let quantity ← parsePositiveInteger line.quantity "lines[].quantity"
    let pickLocationId ← parsePositiveInteger (line.pickLocationId <|> line.fromLocationId)
      "lines[].pickLocationId"
    let restNormalized ← normalizeSalesOrderLines rest
    pure ({ skuId, quantity, pickLocationId } :: restNormalized)

/-- `normalizeSalesOrderEvent(payload)` from `taskGenerationLogic.js`
lines 70–108.  `payload.eventKey ? String(payload.eventKey).trim() : ""`
is the `providedEventKey` match (a missing key and a key trimming to the
empty string both yield `""`). -/
def normalizeSalesOrderEvent (payload : RawSalesOrderPayload) (freshUuid : String) :
    Except HttpError SalesOrderEvent :=
  let salesOrderId := jsTrim (payload.salesOrderId.getD "")
  if salesOrderId = "" then .error ⟨400, "salesOrderId is required"⟩
  else
    match payload.shipDate with
    | none => .error ⟨400, "shipDate must be a valid ISO date"⟩
    | some shipDate =>
      match payload.lines with
      | none => .error ⟨400, "lines must be a non-empty array"⟩
      | some rawLines =>
        if rawLines.isEmpty then .error ⟨400, "lines must be a non-empty array"⟩
        else
          match normalizeSalesOrderLines rawLines with
          | .error e => .error e
          | .ok lines =>
            let sourceDocumentId := "SO:" ++ salesOrderId
            let providedEventKey := match payload.eventKey with
              | some s => jsTrim s
              | none => ""
            if providedEventKey = "" then
              match createEventKey SALES_ORDER_READY_FOR_PICK sourceDocumentId freshUuid with
              | .error e => .error e
              | .ok eventKey =>
                .ok { sourceDocumentId, eventKey, salesOrderId, shipDate, lines }
            else
              .ok { sourceDocumentId, eventKey := providedEventKey, salesOrderId, shipDate,
                    lines }

/-- A normalized purchase-order line. -/
structure PurchaseOrderLine where
  skuId : Int
  quantity : Int
  destinationLocationId : Int
  fromLocationId : Option Int
  deriving Repr, DecidableEq

/-- The normalized purchase-order event returned by
`normalizePurchaseOrderEvent`. -/
structure PurchaseOrderEvent where
  sourceDocumentId : String
  eventKey : String
  purchaseOrderId : String
  receivedAt : Option Int
  lines : List PurchaseOrderLine
  deriving Repr, DecidableEq

/-- A normalized task-generation event
(`normalizeTaskGenerationEvent`'s two supported shapes). -/
inductive NormalizedEvent where
  | sales (event : SalesOrderEvent)
  | purchase (event : PurchaseOrderEvent)
  deriving Repr, DecidableEq

def NormalizedEvent.eventKey : NormalizedEvent → String
  | .sales e => e.eventKey
  | .purchase e => e.eventKey

def NormalizedEvent.eventType : NormalizedEvent → String
  | .sales _ => SALES_ORDER_READY_FOR_PICK
  | .purchase _ => PURCHASE_ORDER_RECEIVED

def NormalizedEvent.sourceDocumentId : NormalizedEvent → String
  | .sales e => e.sourceDocumentId
  | .purchase e => e.sourceDocumentId

/-- `grouped.get(zoneId).push(line)` with first-insertion bucket order —
the JS `Map` insertion-order semantics of `groupLinesByZone`. -/
def insertIntoZoneBucket {α : Type} (grouped : List (String × List α)) (zoneId : String)
    (line : α) : List (String × List α) :=
  match grouped with
  | [] => [(zoneId, [line])]
  | (z, ls) :: rest =>
    if z = zoneId then (z, ls ++ [line]) :: rest
    else (z, ls) :: insertIntoZoneBucket rest zoneId line

/-- The `for (const line of lines)` loop of `groupLinesByZone`: a resolved
zone id that is missing (`undefined`) or falsy (the empty string) aborts
with 400. -/
def groupLinesByZoneGo {α : Type} (zoneResolver : Int → Option String) (locationOf : α → Int)
    (grouped : List (String × List α)) : List α → Except HttpError (List (String × List α))
  | [] => .ok grouped
  | line :: rest =>
    match zoneResolver (locationOf line) with
    | none => .error ⟨400, "No zone mapping found for location"⟩
    | some zoneId =>
      if zoneId = "" then .error ⟨400, "No zone mapping found for location"⟩
      else groupLinesByZoneGo zoneResolver locationOf (insertIntoZoneBucket grouped zoneId line) rest

/-- `groupLinesByZone(lines, zoneResolver, locationFieldName)` from
`taskGenerationLogic.js` lines 171–188 (the dynamic field name is the
`locationOf` projection). -/
def groupLinesByZone {α : Type} (lines : List α) (zoneResolver : Int → Option String)
    (locationOf : α → Int) : Except HttpError (List (String × List α)) :=
  groupLinesByZoneGo zoneResolver locationOf [] lines

/-- One emitted task-specification line. -/
structure TaskSpecLine where
  skuId : Int
  fromLocationId : Option Int
  toLocationId : Option Int
  quantity : Int
  status : String
  deriving Repr, DecidableEq

/-- One emitted task specification. -/
structure TaskSpec where
  type : String
  priority : Int
  zoneId : String
  sourceDocumentId : String
  estimatedTimeSeconds : Int
  lines : List TaskSpecLine
  deriving Repr, DecidableEq

/-- The `options` bag taken by the two task-spec builders. -/
structure BuildOptions where
  baseTimeSeconds : Option Int := none
  timePerUnitSeconds : Option Int := none
  priority : Option Int := none
  deriving Repr, DecidableEq

/-- Body of the per-zone loop of `buildSalesOrderPickTaskSpecs`
(lines 204–221). -/
def pickSpecOfBucket (event : SalesOrderEvent) (priority : Int)
    (baseTimeSeconds timePerUnitSeconds : Int) (bucket : String × List SalesOrderLine) :
    Except HttpError TaskSpec := do
  let totalUnits := bucket.2.foldl (fun sum line => sum + line.quantity) 0
  let estimatedTimeSeconds ← calculateEstimatedTimeSeconds (some totalUnits)
    (some baseTimeSeconds) (some timePerUnitSeconds)
  pure { type := "pick", priority := priority, zoneId := bucket.1,
         sourceDocumentId := event.sourceDocumentId,
         estimatedTimeSeconds := estimatedTimeSeconds,
         lines := bucket.2.map (fun line =>
           { skuId := line.skuId, fromLocationId := some line.pickLocationId,
             toLocationId := none, quantity := line.quantity, status := "created" }) }

/-- `buildSalesOrderPickTaskSpecs(event, zoneResolver, options)` from
`taskGenerationLogic.js` lines 190–224.  `options.now ?? new Date()` is
the explicit `now` argument. -/
def buildSalesOrderPickTaskSpecs (event : SalesOrderEvent) (zoneResolver : Int → Option String)
    (options : BuildOptions) (now : Int) : Except HttpError (List TaskSpec) := do
  let baseTimeSeconds ← parsePositiveInteger
    (some (options.baseTimeSeconds.getD DEFAULT_PICK_BASE_TIME_SECONDS)) "baseTimeSeconds"
  let timePerUnitSeconds ← parsePositiveInteger
    (some (options.timePerUnitSeconds.getD DEFAULT_PICK_TIME_PER_UNIT_SECONDS)) "timePerUnitSeconds"
  let priority := calculatePickPriority event.shipDate now
  let grouped ← groupLinesByZone event.lines zoneResolver (fun line => line.pickLocationId)
  grouped.mapM (pickSpecOfBucket event priority baseTimeSeconds timePerUnitSeconds)

/-- Body of the per-zone loop of `buildPurchaseOrderPutawayTaskSpecs`
(lines 240–257). -/
def putawaySpecOfBucket (event : PurchaseOrderEvent) (priority : Int)
    (baseTimeSeconds timePerUnitSeconds : Int) (bucket : String × List PurchaseOrderLine) :
    Except HttpError TaskSpec := do
  let totalUnits := bucket.2.foldl (fun sum line => sum + line.quantity) 0
  let estimatedTimeSeconds ← calculateEstimatedTimeSeconds (some totalUnits)
    (some baseTimeSeconds) (some timePerUnitSeconds)
  pure { type := "putaway", priority := priority, zoneId := bucket.1,
         sourceDocumentId := event.sourceDocumentId,
         estimatedTimeSeconds := estimatedTimeSeconds,
         lines := bucket.2.map (fun line =>
           { skuId := line.skuId, fromLocationId := line.fromLocationId,
             toLocationId := some line.destinationLocationId, quantity := line.quantity,
             status := "created" }) }

/-- `buildPurchaseOrderPutawayTaskSpecs(event, zoneResolver, options)` from
`taskGenerationLogic.js` lines 226–260. -/
def buildPurchaseOrderPutawayTaskSpecs (event : PurchaseOrderEvent)
    (zoneResolver : Int → Option String) (options : BuildOptions) :
    Except HttpError (List TaskSpec) := do
  let baseTimeSeconds ← parsePositiveInteger
    (some (options.baseTimeSeconds.getD DEFAULT_PUTAWAY_BASE_TIME_SECONDS)) "baseTimeSeconds"
  let timePerUnitSeconds ← parsePositiveInteger
    (some (options.timePerUnitSeconds.getD DEFAULT_PUTAWAY_TIME_PER_UNIT_SECONDS))
    "timePerUnitSeconds"
  let priority ← parsePositiveInteger (some (options.priority.getD DEFAULT_PUTAWAY_PRIORITY))
    "priority"
  let grouped ← groupLinesByZone event.lines zoneResolver (fun line => line.destinationLocationId)
  grouped.mapM (putawaySpecOfBucket event priority baseTimeSeconds timePerUnitSeconds)

/-! ## Task generation service (`services/taskGenerationService.js`)

`generateTasksForOrderEvent(eventPayload)` first normalizes the payload
(line 137, modelled by the normalization functions above — deterministic
once the fresh uuid is fixed) and then runs one transaction over the
database; the transaction's state is `GenState` (event rows, task rows
with their lines, the `location_zones` mapping).  The `BEGIN`/`COMMIT`/
`ROLLBACK` wrapper is modelled as for the task service: an error
restores the initial state.  The function below consumes the normalized
event. -/

/-- A `task_generation_events` row. -/
structure EventRow where
  eventKey : String
  eventType : String
  sourceDocumentId : String
  deriving Repr, DecidableEq

/-- A task row inserted by `createTaskWithLines` together with its
`task_lines` rows: status `created`, version 1, no operator, no
timestamps (the database defaults of the insert at lines 76–122). -/
structure CreatedTask where
  id : Nat
  type : String
  priority : Int
  status : String
  zoneId : String
  sourceDocumentId : String
  estimatedTimeSeconds : Int
  version : Int
  lines : List TaskSpecLine
  deriving Repr, DecidableEq

/-- The database state the generation service reads and writes
(`nextTaskId` models the id sequence of the `tasks` table). -/
structure GenState where
  events : List EventRow
  tasks : List CreatedTask
  locationZones : List (Int × String)
  nextTaskId : Nat
  deriving Repr, DecidableEq

/-- `getTaskGenerationConfig()` (environment-derived; defaults
90/12/75/10/60). -/
structure GenConfig where
  pickBaseTimeSeconds : Int := 90
  pickTimePerUnitSeconds : Int := 12
  putawayBaseTimeSeconds : Int := 75
  putawayTimePerUnitSeconds : Int := 10
  putawayPriority : Int := 60
  deriving Repr, DecidableEq

/-- The scan underlying `jsUniq`: keep the first occurrence of each id
not yet seen. -/
def jsUniqGo (seen : List Int) : List Int → List Int
  | [] => []
  | x :: xs => if seen.contains x then jsUniqGo seen xs else x :: jsUniqGo (x :: seen) xs

/-- `[...new Set(locationIds)]`: unique ids in first-occurrence order. -/
def jsUniq (l : List Int) : List Int := jsUniqGo [] l

/-- Lookup in the `location_zones` mapping (the one-shot query of
`resolveZoneByLocationMap`). -/
def lookupZone (locationZones : List (Int × String)) (locationId : Int) : Option String :=
  (locationZones.find? (fun p => p.1 = locationId)).map Prod.snd

/-- `resolveZoneByLocationMap(client, locationIds)` from
`taskGenerationService.js` lines 51–74: deduplicate, fail on an empty
set, query the mapping, fail listing missing ids, return the map. -/
def resolveZoneByLocationMap (locationZones : List (Int × String)) (locationIds : List Int) :
    Except HttpError (List (Int × String)) :=
  let uniqueLocationIds := jsUniq locationIds
  if uniqueLocationIds.isEmpty then
    .error ⟨400, "At least one location is required"⟩
  else
    let missingLocationIds :=
      uniqueLocationIds.filter (fun l => (lookupZone locationZones l).isNone)
    if missingLocationIds.isEmpty then
      .ok (uniqueLocationIds.filterMap (fun l => (lookupZone locationZones l).map (fun z => (l, z))))
    else .error ⟨400, "Missing zone mapping for location IDs"⟩

/-- `extractLocationIds(normalizedEvent)` (lines 124–134). -/
def extractLocationIds : NormalizedEvent → List Int
  | .sales e => e.lines.map (fun line => line.pickLocationId)
  | .purchase e => e.lines.map (fun line => line.destinationLocationId)

/-- `buildTaskSpecList(normalizedEvent, zoneResolver, config)`
(lines 32–49); the typed `NormalizedEvent` makes the unsupported-type
branch unrepresentable. -/
def buildTaskSpecList (ev : NormalizedEvent) (zoneResolver : Int → Option String)
    (config : GenConfig) (now : Int) : Except HttpError (List TaskSpec) :=
  match ev with
  | .sales e =>
    buildSalesOrderPickTaskSpecs e zoneResolver
      { baseTimeSeconds := some config.pickBaseTimeSeconds,
        timePerUnitSeconds := some config.pickTimePerUnitSeconds } now
  | .purchase e =>
    buildPurchaseOrderPutawayTaskSpecs e zoneResolver
      { baseTimeSeconds := some config.putawayBaseTimeSeconds,
        timePerUnitSeconds := some config.putawayTimePerUnitSeconds,
        priority := some config.putawayPriority }

/-- `createTaskWithLines(client, taskSpec)` (lines 76–122): insert the
task row (id from the sequence) and its lines. -/
def createTaskWithLines (s : GenState) (spec : TaskSpec) : CreatedTask × GenState :=
  let t : CreatedTask :=
    { id := s.nextTaskId, type := spec.type, priority := spec.priority, status := "created",
      zoneId := spec.zoneId, sourceDocumentId := spec.sourceDocumentId,
      estimatedTimeSeconds := spec.estimatedTimeSeconds, version := 1, lines := spec.lines }
  (t, { s with tasks := s.tasks ++ [t], nextTaskId := s.nextTaskId + 1 })

/-- The `for (const taskSpec of taskSpecs)` insert loop
(lines 180–184). -/
def insertTasks : GenState → List TaskSpec → List CreatedTask × GenState
  | s, [] => ([], s)
  | s, spec :: rest =>
    let (t, s1) := createTaskWithLines s spec
    let (ts, s2) := insertTasks s1 rest
    (t :: ts, s2)

/-- The service's result object. -/
structure GenResult where
  eventKey : String
  skipped : Bool
  reason : Option String
  tasks : List CreatedTask
  deriving Repr, DecidableEq

/-- The transaction body of `generateTasksForOrderEvent`
(lines 141–192): the `ON CONFLICT (event_key) DO NOTHING` insert either
hits an existing key (rowCount 0 → commit immediately, duplicate
result, nothing written) or appends the event row and proceeds to zone
resolution, spec building and the task inserts. -/
def generateBody (s : GenState) (ev : NormalizedEvent) (config : GenConfig) (now : Int) :
    Except HttpError (GenResult × GenState) :=
  if s.events.any (fun row => row.eventKey = ev.eventKey) then
    .ok ({ eventKey := ev.eventKey, skipped := true, reason := some "duplicate_event",
           tasks := [] }, s)
  else
    let s1 := { s with
      events := s.events ++ [{ eventKey := ev.eventKey, eventType := ev.eventType, sourceDocumentId := ev.sourceDocumentId }] }
    match resolveZoneByLocationMap s1.locationZones (extractLocationIds ev) with
    | .error e => .error e
    | .ok zoneMap =>
      match buildTaskSpecList ev (fun loc => lookupZone zoneMap loc) config now with
      | .error e => .error e
      | .ok taskSpecs =>
        let (createdTasks, s2) := insertTasks s1 taskSpecs
        .ok ({ eventKey := ev.eventKey, skipped := false, reason := none,
               tasks := createdTasks }, s2)

/-- `generateTasksForOrderEvent` on a normalized event, with its
transaction wrapper (lines 193–200): any error rolls back to the
initial state and is re-raised. -/
def generateTasksForOrderEvent (s : GenState) (ev : NormalizedEvent) (config : GenConfig)
    (now : Int) : Except HttpError GenResult × GenState :=
  match generateBody s ev config now with
  | .ok (r, s2) => (.ok r, s2)
  | .error e => (.error e, s)

/-! ## Task service state machine (`services/taskService.js`)

The database rows a status update touches are an explicit
`TaskServiceState` (task rows, audit-log rows, operator ids).  The
service's transaction is modelled by `updateTaskStatus`: the body runs
sequentially and an error restores the initial state (`ROLLBACK`).
Task-service timestamps (`NOW()`, `started_at`, …) are epoch seconds.
`assertUuid` checks only the identifier's format; ids are opaque strings
here, so it is not modelled.  `assertTaskStatus` is subsumed by the
`TaskStatus` type. -/

/-- A `tasks` row (the columns selected by `TASK_SELECT_SQL`). -/
structure Task where
  id : String
  type : String
  priority : Int
  status : TaskStatus
  zoneId : String
  assignedOperatorId : Option String
  sourceDocumentId : String
  estimatedTimeSeconds : Int
  actualTimeSeconds : Option Int
  version : Int
  startedAt : Option Int
  completedAt : Option Int
  createdAt : Int
  updatedAt : Int
  deriving Repr, DecidableEq

/-- A `task_status_audit_logs` row as inserted by `updateTaskStatus`. -/
structure AuditRow where
  taskId : String
  fromStatus : TaskStatus
  toStatus : TaskStatus
  taskVersion : Int
  changedByOperatorId : Option String
  deriving Repr, DecidableEq

/-- The database state the task service reads and writes. -/
structure TaskServiceState where
  tasks : List Task
  auditLogs : List AuditRow
  operators : List String
  deriving Repr, DecidableEq

/-- `parseExpectedVersion(value)` from `taskService.js` lines 56–65:
absent (`undefined`/`null`) means no optimistic-lock check; anything
that is not a positive integer is a 400. -/
def parseExpectedVersion (value : Option NumInput) : Except HttpError (Option Int) :=
  match value with
  | none => .ok none
  | some (.int n) =>
    if n ≤ 0 then .error ⟨400, "version must be a positive integer"⟩ else .ok (some n)
  | some .nonInt => .error ⟨400, "version must be a positive integer"⟩

/-- The `UPDATE tasks SET …` statement of `updateTaskStatus`
(lines 249–285); every `CASE` reads the pre-update row values. -/
def applyStatusUpdate (t : Task) (newStatus : TaskStatus) (now : Int) : Task :=
  { t with
    status := newStatus,
    startedAt :=
      if newStatus = .in_progress ∧ t.startedAt = none then some now else t.startedAt,
    completedAt := if newStatus = .completed then some now else t.completedAt,
    actualTimeSeconds :=
      match newStatus, t.startedAt with
      | .completed, some startedAt => some (max (now - startedAt) 0)
      | _, _ => t.actualTimeSeconds,
    version := t.version + 1,
    updatedAt := now }

/-- The transaction body of `updateTaskStatus(taskId, newStatus, options)`
(lines 220–305): operator existence check, row lookup (`FOR UPDATE`),
optimistic-lock check, transition check, the update itself and the
audit-log insert.  The `WHERE version = $3` predicate of the update is
satisfied in this sequential model (the row was just read under lock),
so the rowCount-0 conflict branch (lines 287–289) cannot fire here. -/
def updateTaskStatusBody (s : TaskServiceState) (taskId : String) (newStatus : TaskStatus)
    (expectedVersionRaw : Option NumInput) (changedByOperatorId : Option String) (now : Int) :
    Except HttpError (Task × TaskServiceState) :=
  match parseExpectedVersion expectedVersionRaw with
  | .error e => .error e
  | .ok expectedVersion =>
    if _hop : (match changedByOperatorId with
      | some op => s.operators.contains op
      | none => true) = false then .error ⟨400, "Unknown changedByOperatorId"⟩
    else
      match s.tasks.find? (fun t => t.id = taskId) with
      | none => .error ⟨404, "Task not found"⟩
      | some currentTask =>
        if _hv : (match expectedVersion with
          | some v => v != currentTask.version
          | none => false) = true then
          .error ⟨409, "Task version mismatch. Expected another version"⟩
        else if isValidTaskTransition currentTask.status newStatus = false then
          .error ⟨409, "Invalid task status transition"⟩
        else
          let updatedTask := applyStatusUpdate currentTask newStatus now
          let auditRow : AuditRow :=
            { taskId := taskId, fromStatus := currentTask.status, toStatus := newStatus,
              taskVersion := updatedTask.version, changedByOperatorId := changedByOperatorId }
          .ok (updatedTask,
            { s with
              tasks := s.tasks.map (fun t => if t.id = taskId then updatedTask else t),
              auditLogs := s.auditLogs ++ [auditRow] })

/-- `updateTaskStatus` with its `BEGIN`/`COMMIT`/`ROLLBACK` wrapper
(lines 220–350): on error the state is unchanged.  The post-commit
realtime publish is best-effort and does not touch the database, so it
is outside this state model. -/
def updateTaskStatus (s : TaskServiceState) (taskId : String) (newStatus : TaskStatus)
    (expectedVersionRaw : Option NumInput) (changedByOperatorId : Option String) (now : Int) :
    Except HttpError Task × TaskServiceState :=
  match updateTaskStatusBody s taskId newStatus expectedVersionRaw changedByOperatorId now with
  | .ok (t, s2) => (.ok t, s2)
  | .error e => (.error e, s)

/-! ## Labor metrics math (`src/unnamed/part_003`, the labor metrics logic module)

JavaScript numbers are modelled as rationals, so the `Number.isFinite`
guards in `calculateUtilizationPercent` are vacuous (every `ℚ` is
finite).  `Number(x.toFixed(2))` rounds to two decimals with ties going
to the larger value (ECMA-262 `toFixed`), i.e. `⌊100·x + 1/2⌋ / 100`. -/

/-- Two-decimal rounding as performed by `Number(value.toFixed(2))`. -/
def round2 (q : ℚ) : ℚ := ((Int.floor (q * 100 + 1/2) : ℤ) : ℚ) / 100

/-- `calculateUtilizationPercent(totalActiveTimeSeconds, shiftDurationSeconds)`
from the labor metrics logic module (`src/unnamed/part_003` lines 84–95):
negative active time is floored at 0, a non-positive shift duration yields
0, and otherwise the percentage is clamped to [0, 100] and rounded to two
decimals. -/
def calculateUtilizationPercent (totalActiveTimeSeconds shiftDurationSeconds : ℚ) : ℚ :=
  let safeActiveTime := max 0 totalActiveTimeSeconds
  let safeShiftDuration := shiftDurationSeconds
  if safeShiftDuration ≤ 0 then 0
  else round2 (min 100 (max 0 (safeActiveTime / safeShiftDuration * 100)))

end WMS

namespace WMS

/-- Appending a line into its zone bucket appends it to the flattened
line collection, up to permutation. -/
theorem flatten_insertIntoZoneBucket {α : Type} (grouped : List (String × List α)) (z : String)
    (l : α) :
    ((insertIntoZoneBucket grouped z l).map Prod.snd).flatten.Perm
      ((grouped.map Prod.snd).flatten ++ [l]) := by
  induction grouped with
  | nil => simp [insertIntoZoneBucket]
  | cons b rest ih =>
    obtain ⟨z1, ls⟩ := b
    by_cases hz : z1 = z
    · simp only [insertIntoZoneBucket, if_pos hz, List.map_cons, List.flatten_cons,
        List.append_assoc]
      exact List.Perm.append_left ls List.perm_append_comm
    · simp only [insertIntoZoneBucket, if_neg hz, List.map_cons, List.flatten_cons,
        List.append_assoc]
      exact List.Perm.append_left ls ih

/-- The grouping loop only ever redistributes lines: its output buckets
flatten to a permutation of the accumulator's lines followed by the
remaining input lines. -/
theorem groupLinesByZoneGo_flatten_perm {α : Type} (zoneResolver : Int → Option String)
    (locationOf : α → Int) :
    ∀ (lines : List α) (grouped g : List (String × List α)),
      groupLinesByZoneGo zoneResolver locationOf grouped lines = .ok g →
      (g.map Prod.snd).flatten.Perm ((grouped.map Prod.snd).flatten ++ lines) := by
  intro lines
  induction lines with
  | nil =>
    intro grouped g h
    simp only [groupLinesByZoneGo] at h
    cases h
    simp
  | cons line rest ih =>
    intro grouped g h
    cases hres : zoneResolver (locationOf line) with
    | none => simp only [groupLinesByZoneGo, hres] at h; cases h
    | some zoneId =>
      simp only [groupLinesByZoneGo, hres] at h
      by_cases hempty : zoneId = ""
      · rw [if_pos hempty] at h; cases h
      · rw [if_neg hempty] at h
        have hperm := ih (insertIntoZoneBucket grouped zoneId line) g h
        refine hperm.trans ?_
        have h2 := flatten_insertIntoZoneBucket grouped zoneId line
        refine (h2.append_right rest).trans ?_
        simp [List.append_assoc]

/-- `groupLinesByZone` neither drops nor duplicates lines. -/
theorem groupLinesByZone_flatten_perm {α : Type} (lines : List α)
    (zoneResolver : Int → Option String) (locationOf : α → Int)
    (g : List (String × List α))
    (h : groupLinesByZone lines zoneResolver locationOf = .ok g) :
    (g.map Prod.snd).flatten.Perm lines := by
  have := groupLinesByZoneGo_flatten_perm zoneResolver locationOf lines [] g h
  simpa using this

/-- The per-bucket spec builder emits exactly the bucket's lines with
`skuId` and `quantity` carried over unchanged. -/
theorem mapM_pickSpec_lines (event : SalesOrderEvent) (priority : Int) (base perUnit : Int) :
    ∀ (grouped : List (String × List SalesOrderLine)) (specs : List TaskSpec),
      grouped.mapM (pickSpecOfBucket event priority base perUnit) = .ok specs →
      (specs.map TaskSpec.lines).flatten =
        ((grouped.map Prod.snd).flatten).map (fun line =>
          { skuId := line.skuId, fromLocationId := some line.pickLocationId,
            toLocationId := none, quantity := line.quantity, status := "created" : TaskSpecLine }) := by
  intro grouped
  induction grouped with
  | nil =>
    intro specs h
    simp [List.mapM, List.mapM.loop] at h
    cases h
    simp
  | cons b rest ih =>
    intro specs h
    rw [List.mapM_cons] at h
    cases hb : pickSpecOfBucket event priority base perUnit b with
    | error e => rw [hb] at h; cases h
    | ok spec =>
      rw [hb] at h
      cases hrest : rest.mapM (pickSpecOfBucket event priority base perUnit) with
      | error e => rw [hrest] at h; simp only [bind, Except.bind] at h; cases h
      | ok specsRest =>
        rw [hrest] at h
        simp only [bind, Except.bind, pure, Except.pure] at h
        cases h
        have hlines : spec.lines = b.2.map (fun line =>
            { skuId := line.skuId, fromLocationId := some line.pickLocationId,
              toLocationId := none, quantity := line.quantity, status := "created" : TaskSpecLine }) := by
          simp only [pickSpecOfBucket, bind, Except.bind] at hb
          cases hest : calculateEstimatedTimeSeconds
              (some (b.2.foldl (fun sum line => sum + line.quantity) 0)) (some base)
              (some perUnit) with
          | error e => rw [hest] at hb; cases hb
          | ok est => rw [hest] at hb; simp only [pure, Except.pure] at hb; cases hb; rfl
        simp only [List.map_cons, List.flatten_cons, hlines, ih specsRest hrest, List.map_append]

/-- C9: when `buildSalesOrderPickTaskSpecs` succeeds, the `(skuId,
quantity)` pairs of all emitted task-spec lines are a permutation of
those of the input lines (each input line lands in exactly one spec,
exactly once, with sku and quantity unchanged), so the total quantity is
preserved. -/
theorem claim9_grouping_preserves_lines :
    ∀ (event : SalesOrderEvent) (zoneResolver : Int → Option String)
      (options : BuildOptions) (now : Int) (specs : List TaskSpec),
      buildSalesOrderPickTaskSpecs event zoneResolver options now = .ok specs →
      ((specs.map TaskSpec.lines).flatten.map (fun l => (l.skuId, l.quantity))).Perm
          (event.lines.map (fun l => (l.skuId, l.quantity))) ∧
        ((specs.map TaskSpec.lines).flatten.map TaskSpecLine.quantity).sum =
          (event.lines.map SalesOrderLine.quantity).sum := by
  intro event zoneResolver options now specs h
  simp only [buildSalesOrderPickTaskSpecs, bind, Except.bind] at h
  cases hbase : parsePositiveInteger
      (some (options.baseTimeSeconds.getD DEFAULT_PICK_BASE_TIME_SECONDS)) "baseTimeSeconds" with
  | error e => rw [hbase] at h; cases h
  | ok base =>
    rw [hbase] at h
    cases hper : parsePositiveInteger
        (some (options.timePerUnitSeconds.getD DEFAULT_PICK_TIME_PER_UNIT_SECONDS))
        "timePerUnitSeconds" with
    | error e => rw [hper] at h; cases h
    | ok perUnit =>
      rw [hper] at h
      cases hgroup : groupLinesByZone event.lines zoneResolver
          (fun line => line.pickLocationId) with
      | error e => rw [hgroup] at h; cases h
      | ok grouped =>
        rw [hgroup] at h
        have hlines := mapM_pickSpec_lines event
          (calculatePickPriority event.shipDate now) base perUnit grouped specs h
        have hperm := groupLinesByZone_flatten_perm event.lines zoneResolver
          (fun line => line.pickLocationId) grouped hgroup
        constructor
        · rw [hlines, List.map_map]
          exact hperm.map (fun l => (l.skuId, l.quantity))
        · rw [hlines, List.map_map]
          exact (hperm.map SalesOrderLine.quantity).sum_eq

/-- Witness for C9: the spec's zone-grouping scenario (three lines over
zones A, A, B with base 60 s and 5 s per unit) — the permutation and
quantity-sum conclusions hold for the two emitted specs. -/
theorem claim9_grouping_preserves_lines_witness :
    (([{ type := "pick", priority := 90, zoneId := "A", sourceDocumentId := "SO:1001",
         estimatedTimeSeconds := 85,
         lines := [{ skuId := 1, fromLocationId := some 10, toLocationId := none,
                     quantity := 2, status := "created" },
                   { skuId := 2, fromLocationId := some 11, toLocationId := none,
                     quantity := 3, status := "created" }] },
       { type := "pick", priority := 90, zoneId := "B", sourceDocumentId := "SO:1001",
         estimatedTimeSeconds := 65,
         lines := [{ skuId := 3, fromLocationId := some 12, toLocationId := none,
                     quantity := 1, status := "created" }] }].map
        TaskSpec.lines).flatten.map (fun l => (l.skuId, l.quantity))).Perm
      (([(⟨1, 2, 10⟩ : SalesOrderLine), ⟨2, 3, 11⟩, ⟨3, 1, 12⟩]).map
        (fun l => (l.skuId, l.quantity))) :=
  (claim9_grouping_preserves_lines
    { sourceDocumentId := "SO:1001", eventKey := "k", salesOrderId := "1001",
      shipDate := 1772409600000,
      lines := [⟨1, 2, 10⟩, ⟨2, 3, 11⟩, ⟨3, 1, 12⟩] }
    (fun loc => if loc = 10 then some "A" else if loc = 11 then some "A"
      else if loc = 12 then some "B" else none)
    { baseTimeSeconds := some 60, timePerUnitSeconds := some 5 }
    1772323200000
    [{ type := "pick", priority := 90, zoneId := "A", sourceDocumentId := "SO:1001",
       estimatedTimeSeconds := 85,
       lines := [{ skuId := 1, fromLocationId := some 10, toLocationId := none,
                   quantity := 2, status := "created" },
                 { skuId := 2, fromLocationId := some 11, toLocationId := none,
                   quantity := 3, status := "created" }] },
     { type := "pick", priority := 90, zoneId := "B", sourceDocumentId := "SO:1001",
       estimatedTimeSeconds := 65,
       lines := [{ skuId := 3, fromLocationId := some 12, toLocationId := none,
                   quantity := 1, status := "created" }] }]
    (by rfl)).1

/-- The head of a `dropWhile` result never satisfies the dropped
predicate. -/
theorem head?_dropWhile_not_ws :
    ∀ (l : List Char) (c : Char), (l.dropWhile isJsWhitespace).head? = some c →
      isJsWhitespace c = false := by
  intro l
  induction l with
  | nil => intro c h; cases h
  | cons a rest ih =>
    intro c h
    by_cases ha : isJsWhitespace a
    · rw [List.dropWhile_cons_of_pos ha] at h
      exact ih c h
    · rw [List.dropWhile_cons_of_neg ha] at h
      cases h
      exact Bool.not_eq_true _ ▸ (by simpa using ha)

/-- `dropWhile` is the identity on a list whose head does not satisfy
the predicate. -/
theorem dropWhile_eq_self_of_head :
    ∀ (l : List Char), (∀ c, l.head? = some c → isJsWhitespace c = false) →
      l.dropWhile isJsWhitespace = l := by
  intro l h
  cases l with
  | nil => rfl
  | cons a rest =>
    have := h a rfl
    rw [List.dropWhile_cons_of_neg (by simp [this])]

/-- Trimming fixes any string made of a non-empty whitespace-free prefix
followed by an already-trimmed remainder. -/
theorem trimCharList_clean_append (pre x : List Char) (hne : pre ≠ [])
    (hclean : ∀ c ∈ pre, isJsWhitespace c = false) :
    trimCharList (pre ++ trimCharList x) = pre ++ trimCharList x := by
  have h1 : (pre ++ trimCharList x).dropWhile isJsWhitespace = pre ++ trimCharList x := by
    apply dropWhile_eq_self_of_head
    intro c hc
    cases pre with
    | nil => exact absurd rfl hne
    | cons a pre2 =>
      have hac : a = c := by simpa using hc
      exact hac ▸ hclean a (by simp)
  have h2 : ((trimCharList x).reverse ++ pre.reverse).dropWhile isJsWhitespace =
      (trimCharList x).reverse ++ pre.reverse := by
    apply dropWhile_eq_self_of_head
    intro c hc
    cases htx : (trimCharList x).reverse with
    | nil =>
      rw [htx, List.nil_append] at hc
      have : c ∈ pre.reverse := List.mem_of_mem_head? hc
      exact hclean c (by simpa using this)
    | cons d rest =>
      rw [htx] at hc
      have hdc : d = c := by simpa using hc
      subst hdc
      apply head?_dropWhile_not_ws ((x.dropWhile isJsWhitespace).reverse) d
      have : (trimCharList x).reverse =
          (x.dropWhile isJsWhitespace).reverse.dropWhile isJsWhitespace := by
        simp [trimCharList]
      rw [this] at htx
      rw [htx]
      rfl
  rw [trimCharList, h1, List.reverse_append, h2, List.reverse_append, List.reverse_reverse,
    List.reverse_reverse]

/-- `"SO:" ++ <trimmed id>` is already trimmed. -/
theorem jsTrim_SO_append (y : String) : jsTrim ("SO:" ++ jsTrim y) = "SO:" ++ jsTrim y := by
  apply String.ext
  show trimCharList (("SO:" ++ jsTrim y).data) = ("SO:" ++ jsTrim y).data
  have hdata : ("SO:" ++ jsTrim y).data = "SO:".data ++ trimCharList y.data := by
    simp [jsTrim, String.data_append]
  rw [hdata]
  exact trimCharList_clean_append "SO:".data y.data (by decide) (by decide)

/-- A composed source-document id is never the empty string. -/
theorem SO_append_ne_empty (y : String) : ("SO:" ++ jsTrim y) ≠ "" := by
  intro h
  have := congrArg String.data h
  rw [String.data_append] at this
  simp at this

/-- C8 (counterexample): the claim says a supplied non-empty `eventKey`
is used *verbatim*, but the code trims it — the payload key
`" custom-key "` (non-empty) normalizes to the different key
`"custom-key"`. -/
theorem claim8_counterexample :
    (normalizeSalesOrderEvent
      { salesOrderId := some "1001", shipDate := some 1772409600000,
        lines := some [{ skuId := some 1, quantity := some 2, pickLocationId := some 10,
                         fromLocationId := none }],
        eventKey := some " custom-key " } "fresh-uuid").map SalesOrderEvent.eventKey =
      .ok "custom-key" ∧ ("custom-key" : String) ≠ " custom-key " := by
  constructor
  · rfl
  · decide

/-- C8 (amended): when normalization succeeds, a supplied `eventKey`
whose trimming is non-empty yields exactly the *trimmed* key, and a
missing or whitespace-only key yields the composed form
`{eventType}:{sourceDocumentId}:{freshUuid}`. -/
theorem claim8_event_key_selection :
    ∀ (payload : RawSalesOrderPayload) (freshUuid : String) (e : SalesOrderEvent),
      normalizeSalesOrderEvent payload freshUuid = .ok e →
      (∀ k, payload.eventKey = some k → jsTrim k ≠ "" → e.eventKey = jsTrim k) ∧
      ((match payload.eventKey with | some k => jsTrim k | none => "") = "" →
        e.eventKey = SALES_ORDER_READY_FOR_PICK ++ ":" ++ e.sourceDocumentId ++ ":" ++
          freshUuid) := by
  intro payload freshUuid e h
  simp only [normalizeSalesOrderEvent] at h
  by_cases hid : jsTrim (payload.salesOrderId.getD "") = ""
  · rw [if_pos hid] at h; cases h
  · rw [if_neg hid] at h
    cases hship : payload.shipDate with
    | none => simp only [hship] at h; cases h
    | some shipDate =>
      simp only [hship] at h
      cases hlines : payload.lines with
      | none => simp only [hlines] at h; cases h
      | some rawLines =>
        simp only [hlines] at h
        by_cases hraw : rawLines.isEmpty
        · rw [if_pos hraw] at h; cases h
        · rw [if_neg hraw] at h
          cases hnorm : normalizeSalesOrderLines rawLines with
          | error er => simp only [hnorm] at h; cases h
          | ok lines =>
            simp only [hnorm] at h
            by_cases hpk : (match payload.eventKey with
              | some s => jsTrim s
              | none => "") = ""
            · rw [if_pos hpk] at h
              have hck : createEventKey SALES_ORDER_READY_FOR_PICK
                  ("SO:" ++ jsTrim (payload.salesOrderId.getD "")) freshUuid =
                  .ok (SALES_ORDER_READY_FOR_PICK ++ ":" ++
                    ("SO:" ++ jsTrim (payload.salesOrderId.getD "")) ++ ":" ++ freshUuid) := by
                simp only [createEventKey]
                rw [jsTrim_SO_append]
                rw [if_neg (by simp [SO_append_ne_empty]; decide)]
                rw [show jsTrim SALES_ORDER_READY_FOR_PICK = SALES_ORDER_READY_FOR_PICK from
                  by decide]
              simp only [hck] at h
              cases h
              constructor
              · intro k hk hkne
                rw [hk] at hpk
                exact absurd hpk hkne
              · intro _
                rfl
            · rw [if_neg hpk] at h
              cases h
              constructor
              · intro k hk hkne
                simp only [hk]
              · intro hcon
                exact absurd hcon hpk

/-- Witness for C8: a payload carrying the already-clean key
`"stable-key"` normalizes to an event whose key is
`jsTrim "stable-key"`. -/
theorem claim8_event_key_selection_witness :
    ({ sourceDocumentId := "SO:1001", eventKey := "stable-key", salesOrderId := "1001",
       shipDate := 1772409600000,
       lines := [{ skuId := 1, quantity := 2, pickLocationId := 10 }] } :
        SalesOrderEvent).eventKey = jsTrim "stable-key" :=
  (claim8_event_key_selection
    { salesOrderId := some "1001", shipDate := some 1772409600000,
      lines := some [{ skuId := some 1, quantity := some 2, pickLocationId := some 10,
                       fromLocationId := none }],
      eventKey := some "stable-key" } "fresh-uuid"
    { sourceDocumentId := "SO:1001", eventKey := "stable-key", salesOrderId := "1001",
      shipDate := 1772409600000,
      lines := [{ skuId := 1, quantity := 2, pickLocationId := 10 }] }
    (by rfl)).1 "stable-key" rfl (by decide)

/-- The uniq scan keeps every member it has not already seen. -/
theorem jsUniqGo_mem :
    ∀ (l : List Int) (seen : List Int) (x : Int), x ∈ l → x ∉ seen → x ∈ jsUniqGo seen l := by
  intro l
  induction l with
  | nil => intro seen x hx _; cases hx
  | cons y ys ih =>
    intro seen x hx hseen
    rcases List.mem_cons.mp hx with h | h
    · subst h
      rw [jsUniqGo, if_neg (by simpa using hseen)]
      exact List.mem_cons_self _ _
    · by_cases hxy : x = y
      · subst hxy
        rw [jsUniqGo, if_neg (by simpa using hseen)]
        exact List.mem_cons_self _ _
      · rw [jsUniqGo]
        by_cases hy : seen.contains y
        · rw [if_pos hy]
          exact ih seen x h hseen
        · rw [if_neg hy]
          refine List.mem_cons_of_mem _ (ih (y :: seen) x h ?_)
          simp [hxy, hseen]

/-- `jsUniq` keeps every member. -/
theorem jsUniq_mem : ∀ (l : List Int) (x : Int), x ∈ l → x ∈ jsUniq l := by
  intro l x hx
  exact jsUniqGo_mem l [] x hx (by simp)

/-- The insert loop only appends task rows: events, the location-zone
mapping and the previous tasks survive, and the returned list is
exactly what was appended. -/
theorem insertTasks_state :
    ∀ (specs : List TaskSpec) (s : GenState) (ts : List CreatedTask) (s2 : GenState),
      insertTasks s specs = (ts, s2) →
      s2.events = s.events ∧ s2.locationZones = s.locationZones ∧
        s2.tasks = s.tasks ++ ts := by
  intro specs
  induction specs with
  | nil =>
    intro s ts s2 h
    simp only [insertTasks] at h
    cases h
    exact ⟨rfl, rfl, by simp⟩
  | cons spec rest ih =>
    intro s ts s2 h
    simp only [insertTasks, createTaskWithLines] at h
    cases hrest : insertTasks
        { s with
          tasks := s.tasks ++ [{ id := s.nextTaskId, type := spec.type, priority := spec.priority, status := "created", zoneId := spec.zoneId, sourceDocumentId := spec.sourceDocumentId, estimatedTimeSeconds := spec.estimatedTimeSeconds, version := 1, lines := spec.lines }],
          nextTaskId := s.nextTaskId + 1 } rest with
    | mk ts1 s3 =>
      rw [hrest] at h
      cases h
      obtain ⟨he, hl, ht⟩ := ih _ ts1 s3 hrest
      refine ⟨he, hl, ?_⟩
      rw [ht]
      simp

/-- C2: task generation is idempotent per event key.  If the key is
fresh and the first call succeeds, then the first call reported
`skipped = false` and appended its tasks; the second call with the same
normalized event returns
`{skipped := true, reason := "duplicate_event", tasks := []}` without
touching the state, and the state holds exactly one event row for the
key and exactly the task set of the first call. -/
theorem claim2_idempotent_generation :
    ∀ (s : GenState) (ev : NormalizedEvent) (config : GenConfig) (now : Int)
      (r1 : GenResult) (s1 : GenState),
      s.events.any (fun row => row.eventKey = ev.eventKey) = false →
      generateTasksForOrderEvent s ev config now = (.ok r1, s1) →
      r1.skipped = false ∧
      generateTasksForOrderEvent s1 ev config now =
        (.ok { eventKey := ev.eventKey, skipped := true, reason := some "duplicate_event",
               tasks := [] }, s1) ∧
      (s1.events.filter (fun row => row.eventKey = ev.eventKey)).length = 1 ∧
      s1.tasks = s.tasks ++ r1.tasks := by
  intro s ev config now r1 s1 hfresh h
  unfold generateTasksForOrderEvent at h
  cases hbody : generateBody s ev config now with
  | error e =>
    rw [hbody] at h
    have : Except.error (ε := HttpError) e = Except.ok r1 := congrArg Prod.fst h
    cases this
  | ok p =>
    obtain ⟨r, s2⟩ := p
    rw [hbody] at h
    have hr : r = r1 := by
      have := congrArg Prod.fst h
      simpa using this
    have hs : s2 = s1 := congrArg Prod.snd h
    subst hr
    subst hs
    unfold generateBody at hbody
    rw [if_neg (by simp [hfresh])] at hbody
    cases hres : resolveZoneByLocationMap s.locationZones (extractLocationIds ev) with
    | error e => simp only [hres] at hbody; cases hbody
    | ok zoneMap =>
      simp only [hres] at hbody
      cases hspecs : buildTaskSpecList ev (fun loc => lookupZone zoneMap loc) config now with
      | error e => simp only [hspecs] at hbody; cases hbody
      | ok taskSpecs =>
        simp only [hspecs] at hbody
        cases hins : insertTasks
            { s with events := s.events ++ [{ eventKey := ev.eventKey, eventType := ev.eventType, sourceDocumentId := ev.sourceDocumentId }] }
            taskSpecs with
        | mk createdTasks s3 =>
          rw [hins] at hbody
          cases hbody
          obtain ⟨he, -, ht⟩ := insertTasks_state taskSpecs _ createdTasks s3 hins
          have hkey : s3.events.any (fun row => row.eventKey = ev.eventKey) = true := by
            rw [he]
            simp
          refine ⟨rfl, ?_, ?_, by simpa using ht⟩
          · unfold generateTasksForOrderEvent generateBody
            rw [if_pos hkey]
          · rw [he, List.filter_append]
            have hnil : s.events.filter (fun row => row.eventKey = ev.eventKey) = [] := by
              rw [List.filter_eq_nil_iff]
              intro a ha
              have := List.any_eq_false.mp hfresh a ha
              simpa using this
            rw [hnil]
            simp

/-- C4: if the event key is fresh but some line's location has no zone
mapping, the whole call fails with a 400 and the returned state is the
initial one — the event row is not persisted, so a retry is not a
duplicate.  Moreover rollback is unconditional: every error outcome of
the service returns the initial state. -/
theorem claim4_generation_rollback :
    ∀ (s : GenState) (ev : NormalizedEvent) (config : GenConfig) (now : Int),
      s.events.any (fun row => row.eventKey = ev.eventKey) = false →
      (∃ loc, loc ∈ extractLocationIds ev ∧ lookupZone s.locationZones loc = none) →
      (∃ e : HttpError,
        generateTasksForOrderEvent s ev config now = (.error e, s) ∧ e.statusCode = 400) ∧
      (∀ (s3 : GenState) (e : HttpError),
        (generateTasksForOrderEvent s3 ev config now).1 = .error e →
        (generateTasksForOrderEvent s3 ev config now).2 = s3) := by
  intro s ev config now hfresh hmissing
  constructor
  · obtain ⟨loc, hmem, hnone⟩ := hmissing
    have hres : resolveZoneByLocationMap s.locationZones (extractLocationIds ev) =
        .error ⟨400, "Missing zone mapping for location IDs"⟩ := by
      unfold resolveZoneByLocationMap
      have huniq : loc ∈ jsUniq (extractLocationIds ev) := jsUniq_mem _ loc hmem
      rw [if_neg (by
        intro hempty
        rw [List.isEmpty_iff] at hempty
        rw [hempty] at huniq
        cases huniq)]
      have hmiss : loc ∈ (jsUniq (extractLocationIds ev)).filter
          (fun l => (lookupZone s.locationZones l).isNone) :=
        List.mem_filter.mpr ⟨huniq, by simp [hnone]⟩
      rw [if_neg (by
        intro hempty
        rw [List.isEmpty_iff] at hempty
        rw [hempty] at hmiss
        cases hmiss)]
    refine ⟨⟨400, "Missing zone mapping for location IDs"⟩, ?_, rfl⟩
    unfold generateTasksForOrderEvent generateBody
    rw [if_neg (by simp [hfresh])]
    simp only [hres]
  · intro s3 e h
    unfold generateTasksForOrderEvent at h ⊢
    cases hbody : generateBody s3 ev config now with
    | error e2 => rfl
    | ok p =>
      rw [hbody] at h
      cases h

/-- Witness for C2: a fresh sales-order event (one line, location 10 in
zone A) generates one pick task on the first call; the second call with
the same event on the resulting state is the duplicate no-op. -/
theorem claim2_idempotent_generation_witness :
    ({ eventKey := "so-1001-key", skipped := false, reason := none,
       tasks := [{ id := 0, type := "pick", priority := 90, status := "created", zoneId := "A", sourceDocumentId := "SO:1001", estimatedTimeSeconds := 114, version := 1, lines := [{ skuId := 1, fromLocationId := some 10, toLocationId := none, quantity := 2, status := "created" }] }] } :
        GenResult).skipped = false ∧
    generateTasksForOrderEvent
        { events := [{ eventKey := "so-1001-key", eventType := "sales_order_ready_for_pick", sourceDocumentId := "SO:1001" }],
          tasks := [{ id := 0, type := "pick", priority := 90, status := "created", zoneId := "A", sourceDocumentId := "SO:1001", estimatedTimeSeconds := 114, version := 1, lines := [{ skuId := 1, fromLocationId := some 10, toLocationId := none, quantity := 2, status := "created" }] }],
          locationZones := [(10, "A")], nextTaskId := 1 }
        (.sales { sourceDocumentId := "SO:1001", eventKey := "so-1001-key",
                  salesOrderId := "1001", shipDate := 1772409600000,
                  lines := [⟨1, 2, 10⟩] })
        {} 1772323200000 =
      (.ok { eventKey := "so-1001-key", skipped := true, reason := some "duplicate_event",
             tasks := [] },
       { events := [{ eventKey := "so-1001-key", eventType := "sales_order_ready_for_pick", sourceDocumentId := "SO:1001" }],
         tasks := [{ id := 0, type := "pick", priority := 90, status := "created", zoneId := "A", sourceDocumentId := "SO:1001", estimatedTimeSeconds := 114, version := 1, lines := [{ skuId := 1, fromLocationId := some 10, toLocationId := none, quantity := 2, status := "created" }] }],
         locationZones := [(10, "A")], nextTaskId := 1 }) ∧
    (({ events := [{ eventKey := "so-1001-key", eventType := "sales_order_ready_for_pick", sourceDocumentId := "SO:1001" }],
        tasks := [{ id := 0, type := "pick", priority := 90, status := "created", zoneId := "A", sourceDocumentId := "SO:1001", estimatedTimeSeconds := 114, version := 1, lines := [{ skuId := 1, fromLocationId := some 10, toLocationId := none, quantity := 2, status := "created" }] }],
        locationZones := [(10, "A")], nextTaskId := 1 } : GenState).events.filter
      (fun row => row.eventKey =
        (NormalizedEvent.sales { sourceDocumentId := "SO:1001", eventKey := "so-1001-key", salesOrderId := "1001", shipDate := 1772409600000, lines := [⟨1, 2, 10⟩] }).eventKey)).length = 1 ∧
    ({ events := [{ eventKey := "so-1001-key", eventType := "sales_order_ready_for_pick", sourceDocumentId := "SO:1001" }],
       tasks := [{ id := 0, type := "pick", priority := 90, status := "created", zoneId := "A", sourceDocumentId := "SO:1001", estimatedTimeSeconds := 114, version := 1, lines := [{ skuId := 1, fromLocationId := some 10, toLocationId := none, quantity := 2, status := "created" }] }],
       locationZones := [(10, "A")], nextTaskId := 1 } : GenState).tasks =
      ({ events := [], tasks := [], locationZones := [(10, "A")], nextTaskId := 0 } :
        GenState).tasks ++
        ({ eventKey := "so-1001-key", skipped := false, reason := none,
           tasks := [{ id := 0, type := "pick", priority := 90, status := "created", zoneId := "A", sourceDocumentId := "SO:1001", estimatedTimeSeconds := 114, version := 1, lines := [{ skuId := 1, fromLocationId := some 10, toLocationId := none, quantity := 2, status := "created" }] }] } :
          GenResult).tasks :=
  claim2_idempotent_generation
    { events := [], tasks := [], locationZones := [(10, "A")], nextTaskId := 0 }
    (.sales { sourceDocumentId := "SO:1001", eventKey := "so-1001-key", salesOrderId := "1001",
              shipDate := 1772409600000, lines := [⟨1, 2, 10⟩] })
    {} 1772323200000
    { eventKey := "so-1001-key", skipped := false, reason := none,
      tasks := [{ id := 0, type := "pick", priority := 90, status := "created", zoneId := "A", sourceDocumentId := "SO:1001", estimatedTimeSeconds := 114, version := 1, lines := [{ skuId := 1, fromLocationId := some 10, toLocationId := none, quantity := 2, status := "created" }] }] }
    { events := [{ eventKey := "so-1001-key", eventType := "sales_order_ready_for_pick", sourceDocumentId := "SO:1001" }],
      tasks := [{ id := 0, type := "pick", priority := 90, status := "created", zoneId := "A", sourceDocumentId := "SO:1001", estimatedTimeSeconds := 114, version := 1, lines := [{ skuId := 1, fromLocationId := some 10, toLocationId := none, quantity := 2, status := "created" }] }],
      locationZones := [(10, "A")], nextTaskId := 1 }
    (by rfl) (by rfl)

/-- Witness for C4: the same event against a state with no zone mapping
for location 10 fails with a 400 and leaves the (empty) state exactly as
it was. -/
theorem claim4_generation_rollback_witness :
    ∃ e : HttpError,
      generateTasksForOrderEvent
          { events := [], tasks := [], locationZones := [], nextTaskId := 0 }
          (.sales { sourceDocumentId := "SO:1001", eventKey := "so-1001-key",
                    salesOrderId := "1001", shipDate := 1772409600000,
                    lines := [⟨1, 2, 10⟩] })
          {} 1772323200000 =
        (.error e, { events := [], tasks := [], locationZones := [], nextTaskId := 0 }) ∧
        e.statusCode = 400 :=
  (claim4_generation_rollback
    { events := [], tasks := [], locationZones := [], nextTaskId := 0 }
    (.sales { sourceDocumentId := "SO:1001", eventKey := "so-1001-key", salesOrderId := "1001",
              shipDate := 1772409600000, lines := [⟨1, 2, 10⟩] })
    {} 1772323200000 (by rfl) ⟨10, by decide, by rfl⟩).1

/-- A successful `updateTaskStatusBody` returns exactly the applied
update and the state with that row replaced plus one audit row. -/
theorem updateTaskStatusBody_ok (s : TaskServiceState) (taskId : String)
    (newStatus : TaskStatus) (expectedVersionRaw : Option NumInput)
    (changedBy : Option String) (now : Int) (t : Task) (t2 : Task) (s2 : TaskServiceState)
    (hfind : s.tasks.find? (fun x => x.id = taskId) = some t)
    (h : updateTaskStatusBody s taskId newStatus expectedVersionRaw changedBy now =
      .ok (t2, s2)) :
    t2 = applyStatusUpdate t newStatus now ∧
      s2 = { s with
        tasks := s.tasks.map (fun x => if x.id = taskId then applyStatusUpdate t newStatus now else x),
        auditLogs := s.auditLogs ++
          [{ taskId := taskId, fromStatus := t.status, toStatus := newStatus, taskVersion := (applyStatusUpdate t newStatus now).version, changedByOperatorId := changedBy }] } := by
  unfold updateTaskStatusBody at h
  cases hparse : parseExpectedVersion expectedVersionRaw with
  | error e => simp only [hparse] at h; cases h
  | ok expectedVersion =>
    simp only [hparse, hfind] at h
    split at h
    · cases h
    · split at h
      · cases h
      · split at h
        · cases h
        · cases h
          exact ⟨rfl, rfl⟩

/-- C3: whenever `expectedVersion` is supplied and differs from the
task's current version, `updateTaskStatus` fails with a 409 conflict and
the whole state — task row, audit log — is returned unchanged. -/
theorem claim3_optimistic_lock :
    ∀ (s : TaskServiceState) (taskId : String) (newStatus : TaskStatus) (v : Int)
      (changedBy : Option String) (now : Int) (t : Task),
      s.tasks.find? (fun x => x.id = taskId) = some t →
      0 < v →
      v ≠ t.version →
      (∀ op, changedBy = some op → s.operators.contains op = true) →
      ∃ e : HttpError,
        updateTaskStatus s taskId newStatus (some (.int v)) changedBy now = (.error e, s) ∧
        e.statusCode = 409 := by
  intro s taskId newStatus v changedBy now t hfind hv hvne hop
  refine ⟨⟨409, "Task version mismatch. Expected another version"⟩, ?_, rfl⟩
  have hnle : ¬ v ≤ 0 := by omega
  have hparse : parseExpectedVersion (some (.int v)) = .ok (some v) := by
    simp [parseExpectedVersion, hnle]
  have hbody : updateTaskStatusBody s taskId newStatus (some (.int v)) changedBy now =
      .error ⟨409, "Task version mismatch. Expected another version"⟩ := by
    unfold updateTaskStatusBody
    simp only [hparse]
    rw [dif_neg (by
      cases changedBy with
      | none => simp
      | some op => simp only [Bool.not_eq_false, hop op rfl])]
    simp only [hfind]
    rw [dif_pos (by simp [bne_iff_ne, hvne])]
  unfold updateTaskStatus
  rw [hbody]

/-- Witness for C3: the spec's optimistic-lock scenario.  A task at
version 3 is moved to `in_progress` with `expectedVersion = 3`
(succeeds, version becomes 4); repeating `expectedVersion = 3` on the
resulting state fails with 409 and leaves the state untouched. -/
theorem claim3_optimistic_lock_witness :
    updateTaskStatus
        { tasks := [{ id := "t-1", type := "pick", priority := 80, status := .assigned,
                      zoneId := "zone-a", assignedOperatorId := some "op-1",
                      sourceDocumentId := "SO:1001", estimatedTimeSeconds := 150,
                      actualTimeSeconds := none, version := 3, startedAt := none,
                      completedAt := none, createdAt := 100, updatedAt := 200 }],
          auditLogs := [], operators := ["op-1"] }
        "t-1" .in_progress (some (.int 3)) none 1000 =
      (.ok { id := "t-1", type := "pick", priority := 80, status := .in_progress,
             zoneId := "zone-a", assignedOperatorId := some "op-1",
             sourceDocumentId := "SO:1001", estimatedTimeSeconds := 150,
             actualTimeSeconds := none, version := 4, startedAt := some 1000,
             completedAt := none, createdAt := 100, updatedAt := 1000 },
       { tasks := [{ id := "t-1", type := "pick", priority := 80, status := .in_progress,
                     zoneId := "zone-a", assignedOperatorId := some "op-1",
                     sourceDocumentId := "SO:1001", estimatedTimeSeconds := 150,
                     actualTimeSeconds := none, version := 4, startedAt := some 1000,
                     completedAt := none, createdAt := 100, updatedAt := 1000 }],
         auditLogs := [{ taskId := "t-1", fromStatus := .assigned, toStatus := .in_progress, taskVersion := 4, changedByOperatorId := none }],
         operators := ["op-1"] }) ∧
      ∃ e : HttpError,
        updateTaskStatus
            { tasks := [{ id := "t-1", type := "pick", priority := 80, status := .in_progress,
                          zoneId := "zone-a", assignedOperatorId := some "op-1",
                          sourceDocumentId := "SO:1001", estimatedTimeSeconds := 150,
                          actualTimeSeconds := none, version := 4, startedAt := some 1000,
                          completedAt := none, createdAt := 100, updatedAt := 1000 }],
              auditLogs := [{ taskId := "t-1", fromStatus := .assigned, toStatus := .in_progress, taskVersion := 4, changedByOperatorId := none }],
              operators := ["op-1"] }
            "t-1" .paused (some (.int 3)) none 2000 =
          (.error e,
           { tasks := [{ id := "t-1", type := "pick", priority := 80, status := .in_progress,
                         zoneId := "zone-a", assignedOperatorId := some "op-1",
                         sourceDocumentId := "SO:1001", estimatedTimeSeconds := 150,
                         actualTimeSeconds := none, version := 4, startedAt := some 1000,
                         completedAt := none, createdAt := 100, updatedAt := 1000 }],
             auditLogs := [{ taskId := "t-1", fromStatus := .assigned, toStatus := .in_progress, taskVersion := 4, changedByOperatorId := none }],
             operators := ["op-1"] }) ∧
          e.statusCode = 409 :=
  ⟨by rfl,
   claim3_optimistic_lock
     { tasks := [{ id := "t-1", type := "pick", priority := 80, status := .in_progress,
                   zoneId := "zone-a", assignedOperatorId := some "op-1",
                   sourceDocumentId := "SO:1001", estimatedTimeSeconds := 150,
                   actualTimeSeconds := none, version := 4, startedAt := some 1000,
                   completedAt := none, createdAt := 100, updatedAt := 1000 }],
       auditLogs := [{ taskId := "t-1", fromStatus := .assigned, toStatus := .in_progress, taskVersion := 4, changedByOperatorId := none }],
       operators := ["op-1"] }
     "t-1" .paused 3 none 2000
     { id := "t-1", type := "pick", priority := 80, status := .in_progress,
       zoneId := "zone-a", assignedOperatorId := some "op-1",
       sourceDocumentId := "SO:1001", estimatedTimeSeconds := 150,
       actualTimeSeconds := none, version := 4, startedAt := some 1000,
       completedAt := none, createdAt := 100, updatedAt := 1000 }
     (by rfl) (by decide) (by decide) (fun op h => nomatch h)⟩

/-- C5: a successful `updateTaskStatus` sets `status`, applies the
stated `started_at`/`completed_at`/`actual_time_seconds` rules against
the pre-update row, bumps `version` by exactly 1, stamps `updated_at`,
and leaves every other task field unchanged. -/
theorem claim5_update_effects :
    ∀ (s : TaskServiceState) (taskId : String) (newStatus : TaskStatus)
      (expectedVersionRaw : Option NumInput) (changedBy : Option String) (now : Int)
      (t t2 : Task) (s2 : TaskServiceState),
      s.tasks.find? (fun x => x.id = taskId) = some t →
      updateTaskStatus s taskId newStatus expectedVersionRaw changedBy now = (.ok t2, s2) →
      t2.status = newStatus ∧
      t2.startedAt = (if newStatus = .in_progress ∧ t.startedAt = none then some now
        else t.startedAt) ∧
      t2.completedAt = (if newStatus = .completed then some now else t.completedAt) ∧
      t2.actualTimeSeconds = (if newStatus = TaskStatus.completed ∧ t.startedAt ≠ none then
        some (max 0 (now - t.startedAt.getD 0)) else t.actualTimeSeconds) ∧
      t2.version = t.version + 1 ∧
      t2.updatedAt = now ∧
      t2.id = t.id ∧ t2.type = t.type ∧ t2.priority = t.priority ∧ t2.zoneId = t.zoneId ∧
      t2.assignedOperatorId = t.assignedOperatorId ∧
      t2.sourceDocumentId = t.sourceDocumentId ∧
      t2.estimatedTimeSeconds = t.estimatedTimeSeconds ∧
      t2.createdAt = t.createdAt := by
  intro s taskId newStatus expectedVersionRaw changedBy now t t2 s2 hfind h
  unfold updateTaskStatus at h
  cases hbody : updateTaskStatusBody s taskId newStatus expectedVersionRaw changedBy now with
  | error e =>
    rw [hbody] at h
    have : Except.error e = Except.ok t2 := congrArg Prod.fst h
    cases this
  | ok p =>
    obtain ⟨tb, sb⟩ := p
    rw [hbody] at h
    have htb : tb = t2 := by
      have := congrArg Prod.fst h
      simpa using this
    obtain ⟨ht2, -⟩ := updateTaskStatusBody_ok s taskId newStatus expectedVersionRaw
      changedBy now t tb sb hfind hbody
    rw [← htb, ht2]
    refine ⟨rfl, rfl, rfl, ?_, rfl, rfl, rfl, rfl, rfl, rfl, rfl, rfl, rfl, rfl⟩
    simp only [applyStatusUpdate]
    cases newStatus <;> cases t.startedAt <;> simp [max_comm]

/-- Witness for C5: completing an `in_progress` task that started at
second 1000, at second 1030 — `completed_at` and
`actual_time_seconds = 30` are set, the version moves 7 → 8, and the
other fields survive; every hypothesis of the theorem is discharged on
this concrete state. -/
theorem claim5_update_effects_witness :
    ({ id := "t-9", type := "pick", priority := 50, status := .completed, zoneId := "zone-b",
       assignedOperatorId := some "op-2", sourceDocumentId := "SO:2002",
       estimatedTimeSeconds := 120, actualTimeSeconds := some 30, version := 8,
       startedAt := some 1000, completedAt := some 1030, createdAt := 10,
       updatedAt := 1030 } : Task).status = TaskStatus.completed ∧
    ({ id := "t-9", type := "pick", priority := 50, status := .completed, zoneId := "zone-b",
       assignedOperatorId := some "op-2", sourceDocumentId := "SO:2002",
       estimatedTimeSeconds := 120, actualTimeSeconds := some 30, version := 8,
       startedAt := some 1000, completedAt := some 1030, createdAt := 10,
       updatedAt := 1030 } : Task).startedAt =
      (if TaskStatus.completed = TaskStatus.in_progress ∧
          ({ id := "t-9", type := "pick", priority := 50, status := .in_progress,
             zoneId := "zone-b", assignedOperatorId := some "op-2",
             sourceDocumentId := "SO:2002", estimatedTimeSeconds := 120,
             actualTimeSeconds := none, version := 7, startedAt := some 1000,
             completedAt := none, createdAt := 10, updatedAt := 1000 } : Task).startedAt = none
        then some 1030
        else ({ id := "t-9", type := "pick", priority := 50, status := .in_progress,
                zoneId := "zone-b", assignedOperatorId := some "op-2",
                sourceDocumentId := "SO:2002", estimatedTimeSeconds := 120,
                actualTimeSeconds := none, version := 7, startedAt := some 1000,
                completedAt := none, createdAt := 10, updatedAt := 1000 } : Task).startedAt) :=
  have happ := claim5_update_effects
    { tasks := [{ id := "t-9", type := "pick", priority := 50, status := .in_progress,
                  zoneId := "zone-b", assignedOperatorId := some "op-2",
                  sourceDocumentId := "SO:2002", estimatedTimeSeconds := 120,
                  actualTimeSeconds := none, version := 7, startedAt := some 1000,
                  completedAt := none, createdAt := 10, updatedAt := 1000 }],
      auditLogs := [], operators := [] }
    "t-9" .completed none none 1030
    { id := "t-9", type := "pick", priority := 50, status := .in_progress, zoneId := "zone-b",
      assignedOperatorId := some "op-2", sourceDocumentId := "SO:2002",
      estimatedTimeSeconds := 120, actualTimeSeconds := none, version := 7,
      startedAt := some 1000, completedAt := none, createdAt := 10, updatedAt := 1000 }
    { id := "t-9", type := "pick", priority := 50, status := .completed, zoneId := "zone-b",
      assignedOperatorId := some "op-2", sourceDocumentId := "SO:2002",
      estimatedTimeSeconds := 120, actualTimeSeconds := some 30, version := 8,
      startedAt := some 1000, completedAt := some 1030, createdAt := 10, updatedAt := 1030 }
    { tasks := [{ id := "t-9", type := "pick", priority := 50, status := .completed,
                  zoneId := "zone-b", assignedOperatorId := some "op-2",
                  sourceDocumentId := "SO:2002", estimatedTimeSeconds := 120,
                  actualTimeSeconds := some 30, version := 8, startedAt := some 1000,
                  completedAt := some 1030, createdAt := 10, updatedAt := 1030 }],
      auditLogs := [{ taskId := "t-9", fromStatus := .in_progress, toStatus := .completed, taskVersion := 8, changedByOperatorId := none }],
      operators := [] }
    (by rfl) (by rfl)
  ⟨happ.1, happ.2.1⟩

theorem round2_mono {q r : ℚ} (h : q ≤ r) : round2 q ≤ round2 r := by
  unfold round2
  have hf : Int.floor (q * 100 + 1/2) ≤ Int.floor (r * 100 + 1/2) :=
    Int.floor_le_floor (by nlinarith)
  have : ((Int.floor (q * 100 + 1/2) : ℤ) : ℚ) ≤ ((Int.floor (r * 100 + 1/2) : ℤ) : ℚ) := by
    exact_mod_cast hf
  linarith

theorem round2_zero : round2 0 = 0 := by
  unfold round2
  norm_num

theorem round2_hundred : round2 100 = 100 := by
  unfold round2
  norm_num [Int.floor_eq_iff]

/-- Rounding after clamping to [0, 100] agrees with clamping after
rounding: the two endpoints are fixed points of `round2` and `round2`
is monotone. -/
theorem round2_clamp_comm (x : ℚ) :
    round2 (min 100 (max 0 x)) = min 100 (max 0 (round2 x)) := by
  rcases le_total x 0 with hx | hx
  · have h1 : max 0 x = 0 := max_eq_left hx
    have h2 : round2 x ≤ 0 := by simpa [round2_zero] using round2_mono hx
    rw [h1]
    norm_num [round2_zero]
    rw [max_eq_left h2]
    norm_num
  · have h1 : max 0 x = x := max_eq_right hx
    have h2 : (0:ℚ) ≤ round2 x := by simpa [round2_zero] using round2_mono hx
    rcases le_total x 100 with hx2 | hx2
    · have h3 : round2 x ≤ 100 := by simpa [round2_hundred] using round2_mono hx2
      rw [h1, min_eq_right hx2, max_eq_right h2, min_eq_right h3]
    · have h3 : (100:ℚ) ≤ round2 x := by simpa [round2_hundred] using round2_mono hx2
      rw [h1, min_eq_left hx2, round2_hundred, max_eq_right h2, min_eq_left h3]

/-- C6: for every input pair, `calculateUtilizationPercent` lies in
[0, 100]; it is 0 whenever the shift duration is ≤ 0, and for a positive
shift duration it equals
`clamp(round2(100 × totalActiveTime / shiftDuration), 0, 100)`. -/
theorem claim6_utilization_bounds :
    ∀ a s : ℚ,
      (0 ≤ calculateUtilizationPercent a s ∧ calculateUtilizationPercent a s ≤ 100) ∧
      (s ≤ 0 → calculateUtilizationPercent a s = 0) ∧
      (0 < s → calculateUtilizationPercent a s =
        min 100 (max 0 (round2 (100 * a / s)))) := by
  intro a s
  by_cases hs : s ≤ 0
  · simp only [calculateUtilizationPercent, if_pos hs]
    refine ⟨⟨le_refl 0, by norm_num⟩, fun _ => trivial, fun h => absurd h (not_lt.mpr hs)⟩
  · push_neg at hs
    have hax : max 0 a / s * 100 = max 0 (100 * a / s) := by
      rcases le_total a 0 with ha | ha
      · have h1 : max 0 a = 0 := max_eq_left ha
        have h2 : 100 * a / s ≤ 0 := by
          apply div_nonpos_of_nonpos_of_nonneg (by nlinarith) (le_of_lt hs)
        rw [h1, max_eq_left h2]
        ring
      · have h1 : max 0 a = a := max_eq_right ha
        have h2 : (0:ℚ) ≤ 100 * a / s := by positivity
        rw [h1, max_eq_right h2]
        ring
    simp only [calculateUtilizationPercent, if_neg (not_le.mpr hs)]
    rw [hax, ← max_assoc, max_self, round2_clamp_comm]
    have harg0 : (0:ℚ) ≤ min 100 (max 0 (round2 (100 * a / s))) := by
      have : (0:ℚ) ≤ max 0 (round2 (100 * a / s)) := le_max_left _ _
      simp [this]
    have harg100 : min 100 (max 0 (round2 (100 * a / s))) ≤ 100 := min_le_left _ _
    exact ⟨⟨harg0, harg100⟩, fun h => absurd hs (not_lt.mpr h), fun _ => rfl⟩

/-- Witness for C6: a 30-second active time over a 60-second shift
duration, with the positive-duration conjunct discharged at `s = 60`. -/
theorem claim6_utilization_bounds_witness :
    (0 : ℚ) < 60 ∧
      calculateUtilizationPercent 30 60 = min 100 (max 0 (round2 (100 * 30 / 60))) :=
  ⟨by norm_num, (claim6_utilization_bounds 30 60).2.2 (by norm_num)⟩

end WMS

namespace WMS

/-- C1 (counterexample): the claim states that `isValidTaskTransition`
rejects every transition out of the terminal state `completed`, but the
code accepts `completed → cancelled` (the `nextStatus === "cancelled"`
early return in `taskService.js` line 111 fires for *any* distinct
current status, terminal or not), so the claimed iff fails at the pair
`(completed, cancelled)`. -/
theorem claim1_counterexample :
    isValidTaskTransition TaskStatus.completed TaskStatus.cancelled = true ∧
      specClaimedTransition TaskStatus.completed TaskStatus.cancelled = false := by
  decide

/-- C1 (amended): for every pair of statuses, `isValidTaskTransition`
accepts exactly the five enumerated arrows plus cancellation from any
status other than `cancelled` itself — i.e. cancellation is also
accepted from the terminal states `completed` and `failed`; every other
pair, including all self-transitions, is rejected. -/
theorem claim1_transition_closure :
    ∀ s s' : TaskStatus,
      isValidTaskTransition s s' = true ↔ codeTransitionRelation s s' = true := by
  decide

/-- C7: `calculatePickPriority` equals the claimed piecewise function of
the floored whole-day difference, is monotonically non-increasing in
`shipDate − now`, and matches the four concrete values of the spec
scenario (epoch milliseconds: `2026-03-01T00:00Z = 1772323200000`,
`2026-03-02 = 1772409600000`, `2026-03-03 = 1772496000000`,
`2026-03-06 = 1772755200000`). -/
theorem claim7_pick_priority :
    (∀ shipDate now : Int,
        calculatePickPriority shipDate now =
          if Int.fdiv (shipDate - now) msPerDay ≤ 0 then 100
          else if Int.fdiv (shipDate - now) msPerDay = 1 then 90
          else if Int.fdiv (shipDate - now) msPerDay ≤ 3 then 70
          else 50) ∧
    (∀ s₁ n₁ s₂ n₂ : Int, s₁ - n₁ ≤ s₂ - n₂ →
        calculatePickPriority s₂ n₂ ≤ calculatePickPriority s₁ n₁) ∧
    (calculatePickPriority 1772755200000 1772323200000 = 50 ∧
     calculatePickPriority 1772496000000 1772323200000 = 70 ∧
     calculatePickPriority 1772409600000 1772323200000 = 90 ∧
     calculatePickPriority 1772323200000 1772323200000 = 100) := by
  refine ⟨fun shipDate now => rfl, fun s₁ n₁ s₂ n₂ h => ?_, by decide, by decide, by decide, by decide⟩
  have hd : (s₁ - n₁).fdiv msPerDay ≤ (s₂ - n₂).fdiv msPerDay := by
    rw [Int.fdiv_eq_ediv _ (by norm_num [msPerDay]), Int.fdiv_eq_ediv _ (by norm_num [msPerDay])]
    simp only [msPerDay]
    omega
  simp only [calculatePickPriority]
  split_ifs <;> omega

/-- Witness for C7: the monotonicity conjunct applied at the concrete
pair (`shipDate − now` of 0 days vs 5 days). -/
theorem claim7_pick_priority_witness :
    ((1772323200000 : Int) - 1772323200000 ≤ 1772755200000 - 1772323200000) ∧
      calculatePickPriority 1772755200000 1772323200000 ≤
        calculatePickPriority 1772323200000 1772323200000 :=
  ⟨by norm_num, claim7_pick_priority.2.1 1772323200000 1772323200000 1772755200000 1772323200000 (by norm_num)⟩

/-- C10: pagination parsing is total and self-clamping — the result
always has `page ≥ 1` and `1 ≤ limit ≤ 200` with
`offset = (page − 1) × limit`; non-integer or non-positive inputs fall
back to page 1 / limit 50, and an integer limit above 200 is clamped to
200. -/
theorem claim10_pagination :
    (∀ page limit : NumInput,
        1 ≤ (parsePaginationParams page limit).page ∧
        1 ≤ (parsePaginationParams page limit).limit ∧
        (parsePaginationParams page limit).limit ≤ 200 ∧
        (parsePaginationParams page limit).offset =
          ((parsePaginationParams page limit).page - 1) *
            (parsePaginationParams page limit).limit) ∧
    (∀ page limit : NumInput, ∀ np nl : Int,
        (page = .nonInt ∨ (page = .int np ∧ np ≤ 0) →
          (parsePaginationParams page limit).page = 1) ∧
        (limit = .nonInt ∨ (limit = .int nl ∧ nl ≤ 0) →
          (parsePaginationParams page limit).limit = 50) ∧
        (limit = .int nl ∧ 200 < nl →
          (parsePaginationParams page limit).limit = 200)) := by
  constructor
  · intro page limit
    cases page <;> cases limit <;>
      refine ⟨?_, ?_, ?_, ?_⟩ <;> simp only [parsePaginationParams] <;>
      (try split_ifs) <;> (try rfl) <;> omega
  · intro page limit np nl
    refine ⟨fun h => ?_, fun h => ?_, fun h => ?_⟩
    · rcases h with h | ⟨h, hle⟩ <;> subst h <;> cases limit <;>
        simp only [parsePaginationParams] <;> (try split_ifs) <;> (try rfl) <;> omega
    · rcases h with h | ⟨h, hle⟩ <;> subst h <;> cases page <;>
        simp only [parsePaginationParams] <;> (try split_ifs) <;> (try rfl) <;> omega
    · rcases h with ⟨h, hgt⟩
      subst h
      cases page <;>
        simp only [parsePaginationParams] <;> (try split_ifs) <;> (try rfl) <;> omega

/-- Witness for C10: a non-integer page with limit 1000 yields page 1
and the limit clamped to 200. -/
theorem claim10_pagination_witness :
    (parsePaginationParams .nonInt (.int 1000)).page = 1 ∧
      (parsePaginationParams .nonInt (.int 1000)).limit = 200 :=
  ⟨(claim10_pagination.2 .nonInt (.int 1000) 0 1000).1 (Or.inl rfl),
   (claim10_pagination.2 .nonInt (.int 1000) 0 1000).2.2 ⟨rfl, by decide⟩⟩

end WMS
